import Mathlib

/-!
Verification of the retry/backoff, rate-limiting and error-classification layer
of `utils/error_handling.py` (the only component the specification keeps in
scope).  Python floats are modelled as exact rationals, wall-clock time as a
rational parameter, and the blocking `time.sleep` as an idealized clock
advance.  Exceptions are modelled as values carrying their class and message,
with `isinstance` following the class hierarchy declared in the source
(`ValidationError`, `APIError`, `RateLimitError(APIError)`) and, for the
`anthropic` SDK the source imports, the hierarchy that SDK declares
(`RateLimitError`, `AuthenticationError` are subclasses of `APIStatusError`,
itself a subclass of `APIError`; `APIConnectionError` is a subclass of
`APIError`).
-/

/-- Python exception classes that appear in `utils/error_handling.py` and its
tests: the module's own `ValidationError`, `APIError`, `RateLimitError`, the
`anthropic` SDK classes it catches, and builtin classes raised by callers. -/
inductive ExcClass where
  | exceptionC
  | validationErrorC
  | apiErrorC
  | rateLimitErrorC
  | anthropicAPIErrorC
  | anthropicRateLimitErrorC
  | anthropicAPIConnectionErrorC
  | anthropicAuthenticationErrorC
  | valueErrorC
  | typeErrorC
  | zeroDivisionErrorC
deriving DecidableEq, Repr

/-- Python `isinstance`, as the reflexive-transitive subclass test.  The
module declares `ValidationError(Exception)`, `APIError(Exception)`,
`RateLimitError(APIError)`; the anthropic SDK declares `RateLimitError`,
`AuthenticationError` and `APIConnectionError` all below `anthropic.APIError`;
`ValueError`, `TypeError` and `ZeroDivisionError` are builtins below
`Exception`. -/
def isSubclass (c d : ExcClass) : Bool :=
  decide (c = d) ||
  match c with
  | ExcClass.exceptionC => false
  | ExcClass.validationErrorC => decide (d = ExcClass.exceptionC)
  | ExcClass.apiErrorC => decide (d = ExcClass.exceptionC)
  | ExcClass.rateLimitErrorC =>
      decide (d = ExcClass.apiErrorC) || decide (d = ExcClass.exceptionC)
  | ExcClass.anthropicAPIErrorC => decide (d = ExcClass.exceptionC)
  | ExcClass.anthropicRateLimitErrorC =>
      decide (d = ExcClass.anthropicAPIErrorC) || decide (d = ExcClass.exceptionC)
  | ExcClass.anthropicAPIConnectionErrorC =>
      decide (d = ExcClass.anthropicAPIErrorC) || decide (d = ExcClass.exceptionC)
  | ExcClass.anthropicAuthenticationErrorC =>
      decide (d = ExcClass.anthropicAPIErrorC) || decide (d = ExcClass.exceptionC)
  | ExcClass.valueErrorC => decide (d = ExcClass.exceptionC)
  | ExcClass.typeErrorC => decide (d = ExcClass.exceptionC)
  | ExcClass.zeroDivisionErrorC => decide (d = ExcClass.exceptionC)

/-- A Python exception object: its class and its `str(e)` message. -/
structure Exc where
  cls : ExcClass
  msg : String
deriving DecidableEq, Repr

/-- Python `isinstance(e, c)`. -/
def isinstance (e : Exc) (c : ExcClass) : Bool :=
  isSubclass e.cls c

/-- The three-kind error taxonomy of the specification (plus a fourth bucket
for exceptions outside it): Validation, RateLimit (subtype of API), API. -/
inductive ErrKind where
  | validation
  | rateLimit
  | api
  | other
deriving DecidableEq, Repr

/-- Kind of an exception under the module's taxonomy: `ValidationError` is
Validation, `RateLimitError` is RateLimit, any other `APIError` is API,
everything else is outside the taxonomy. -/
def kindOf (e : Exc) : ErrKind :=
  if isinstance e ExcClass.validationErrorC then ErrKind.validation
  else if isinstance e ExcClass.rateLimitErrorC then ErrKind.rateLimit
  else if isinstance e ExcClass.apiErrorC then ErrKind.api
  else ErrKind.other

/-- The `except` chain of `handle_api_error` (error_handling.py lines
100-118), applied to the exception `e` raised by the wrapped call.  Python
tries the clauses in source order and the first clause whose class matches
wins: `anthropic.APIError` first (raising `APIError`), then
`anthropic.RateLimitError` (raising `RateLimitError`), then
`anthropic.APIConnectionError` and `anthropic.AuthenticationError` (raising
`APIError`), and finally `except Exception: raise`, which re-raises `e`
unchanged. -/
def handle_api_error (e : Exc) : Exc :=
  if isinstance e ExcClass.anthropicAPIErrorC then
    ⟨ExcClass.apiErrorC, "API call failed: " ++ e.msg⟩
  else if isinstance e ExcClass.anthropicRateLimitErrorC then
    ⟨ExcClass.rateLimitErrorC, "Rate limit exceeded: " ++ e.msg⟩
  else if isinstance e ExcClass.anthropicAPIConnectionErrorC then
    ⟨ExcClass.apiErrorC, "Failed to connect to API: " ++ e.msg⟩
  else if isinstance e ExcClass.anthropicAuthenticationErrorC then
    ⟨ExcClass.apiErrorC, "Authentication failed: " ++ e.msg⟩
  else e

/-- The `validate_input` helper (error_handling.py lines 123-136): raise
`ValidationError(message)` when the condition is false, return `None`
otherwise. -/
def validate_input (condition : Bool) (message : String) : Except Exc Unit :=
  if !condition then Except.error ⟨ExcClass.validationErrorC, message⟩
  else Except.ok ()

/-- Configuration of the `retry_with_backoff` decorator (error_handling.py
lines 28-34), with the source's default values.  `max_retries` is a Python
`int`, so it may be negative.  The `exceptions` tuple of classes decides
which raised exceptions are caught and retried. -/
structure RetryConfig where
  max_retries : Int := 3
  initial_delay : ℚ := 1
  max_delay : ℚ := 60
  exponential_base : ℚ := 2
  exceptions : List ExcClass := [ExcClass.exceptionC]
deriving Repr

/-- Whether the raised exception `e` matches the decorator's `exceptions`
tuple, i.e. whether the `except exceptions as e` clause catches it. -/
def caught (excs : List ExcClass) (e : Exc) : Bool :=
  excs.any (fun c => isinstance e c)

/-- The delay update executed after each sleep (error_handling.py line 81):
`delay = min(delay * exponential_base, max_delay)`. -/
def nextDelay (cfg : RetryConfig) (d : ℚ) : ℚ :=
  min (d * cfg.exponential_base) cfg.max_delay

/-- Outcome of one invocation of the retry wrapper: a returned value, a
raised exception, or Python's implicit `return None` (reached only when the
`for` loop body never runs). -/
inductive PyResult (α : Type) where
  | ok (a : α)
  | raised (e : Exc)
  | noneReturn
deriving DecidableEq, Repr

/-- Observable trace of one invocation of the retry wrapper: its outcome,
how many times the wrapped function was called, and the list of sleep
durations performed, in order. -/
structure RunTrace (α : Type) where
  result : PyResult α
  calls : Nat
  sleeps : List ℚ
deriving DecidableEq, Repr

/-- The `for attempt in range(max_retries + 1)` loop of the wrapper
(error_handling.py lines 56-81).  `f i` is the outcome of the i-th call of
the wrapped function; `fuel` is the number of attempts still allowed after
the current one (so `fuel = 0` means `attempt == max_retries`, where the
caught exception is re-raised by the bare `raise`).  A caught failure with
fuel left sleeps `delay` seconds and continues with
`min(delay * exponential_base, max_delay)`; an uncaught failure propagates
at once. -/
def retryLoop (cfg : RetryConfig) (f : Nat → Except Exc α) :
    Nat → ℚ → Nat → RunTrace α
  | attempt, _delay, 0 =>
    match f attempt with
    | Except.ok a => ⟨PyResult.ok a, 1, []⟩
    | Except.error e => ⟨PyResult.raised e, 1, []⟩
  | attempt, delay, fuel + 1 =>
    match f attempt with
    | Except.ok a => ⟨PyResult.ok a, 1, []⟩
    | Except.error e =>
      if caught cfg.exceptions e then
        let rest := retryLoop cfg f (attempt + 1) (nextDelay cfg delay) fuel
        ⟨rest.result, rest.calls + 1, delay :: rest.sleeps⟩
      else ⟨PyResult.raised e, 1, []⟩

/-- One invocation of the function produced by `retry_with_backoff`
(error_handling.py lines 50-87).  When `max_retries < 0` the loop
`for attempt in range(max_retries + 1)` runs zero times, `last_exception`
is still `None`, and the wrapper falls through to an implicit
`return None`; otherwise the loop runs with `max_retries + 1` attempts
starting from `delay = initial_delay`. -/
def retry_with_backoff (cfg : RetryConfig) (f : Nat → Except Exc α) :
    RunTrace α :=
  if cfg.max_retries < 0 then ⟨PyResult.noneReturn, 0, []⟩
  else retryLoop cfg f 0 cfg.initial_delay cfg.max_retries.toNat

/-- State of a `RateLimiter` instance (error_handling.py lines 162-188). -/
structure RateLimiter where
  requests_per_minute : Int
  min_interval : ℚ
  last_request_time : ℚ
deriving DecidableEq, Repr

/-- The constructor `RateLimiter.__init__` (lines 167-176): stores
`requests_per_minute`, computes `min_interval = 60.0 / requests_per_minute`
(which raises `ZeroDivisionError` when the divisor is 0 — Python raises no
error for a negative divisor) and initializes `last_request_time = 0.0`. -/
def RateLimiter.init (r : Int) : Except Exc RateLimiter :=
  if r = 0 then
    Except.error ⟨ExcClass.zeroDivisionErrorC, "float division by zero"⟩
  else Except.ok ⟨r, 60 / (r : ℚ), 0⟩

/-- The sleep performed by `wait_if_needed` when called at clock value `t`
(lines 180-186): `min_interval - (t - last_request_time)` when that gap is
still positive, else no sleep. -/
def sleep_time (s : RateLimiter) (t : ℚ) : ℚ :=
  if t - s.last_request_time < s.min_interval then
    s.min_interval - (t - s.last_request_time)
  else 0

/-- `RateLimiter.wait_if_needed` called at clock value `t` (lines 178-188):
returns the sleep duration performed and the updated limiter, whose
`last_request_time` is the clock value after the sleep (`time.time()` taken
on line 188, modelled as `t` advanced by the sleep). -/
def wait_if_needed (s : RateLimiter) (t : ℚ) : ℚ × RateLimiter :=
  (sleep_time s t,
   ⟨s.requests_per_minute, s.min_interval, t + sleep_time s t⟩)

/-! ## General lemmas about the model -/

/-- The sleep performed by `wait_if_needed` is exactly
`max(0, min_interval - elapsed)`. -/
theorem sleep_time_eq_max (s : RateLimiter) (t : ℚ) :
    sleep_time s t = max 0 (s.min_interval - (t - s.last_request_time)) := by
  unfold sleep_time
  rcases lt_or_le (t - s.last_request_time) s.min_interval with h | h
  · rw [if_pos h, max_eq_right (by linarith)]
  · rw [if_neg (not_lt.mpr h), max_eq_left (by linarith)]

/-- A single `wait_if_needed` call advances `last_request_time` by at least
`min_interval`, from any limiter state and any clock value. -/
theorem wait_if_needed_spacing (s : RateLimiter) (t : ℚ) :
    s.min_interval ≤ (wait_if_needed s t).2.last_request_time - s.last_request_time := by
  have h : s.min_interval - (t - s.last_request_time) ≤ sleep_time s t := by
    rw [sleep_time_eq_max]; exact le_max_right _ _
  show s.min_interval ≤ t + sleep_time s t - s.last_request_time
  linarith

/-- When every attempt raises a caught exception, the loop performs
`fuel + 1` calls and its outcome is the exception of the final attempt. -/
theorem retryLoop_all_fail {α : Type} (cfg : RetryConfig) (es : Nat → Exc)
    (h : ∀ i, caught cfg.exceptions (es i) = true) :
    ∀ (fuel attempt : Nat) (delay : ℚ),
      (retryLoop cfg (fun i => (Except.error (es i) : Except Exc α)) attempt delay fuel).result
          = PyResult.raised (es (attempt + fuel)) ∧
      (retryLoop cfg (fun i => (Except.error (es i) : Except Exc α)) attempt delay fuel).calls
          = fuel + 1 := by
  intro fuel
  induction fuel with
  | zero => intro attempt delay; simp [retryLoop]
  | succ n ih =>
    intro attempt delay
    obtain ⟨ih1, ih2⟩ := ih (attempt + 1) (nextDelay cfg delay)
    have hidx : attempt + 1 + n = attempt + (n + 1) := by omega
    rw [hidx] at ih1
    simp [retryLoop, h attempt, ih1, ih2]

/-- Closed form of the iterated delay update: starting from
`initial_delay ≤ max_delay` with `exponential_base ≥ 1`, the delay used for
the i-th sleep is `min(initial_delay * exponential_base ^ i, max_delay)`. -/
theorem nextDelay_iterate (cfg : RetryConfig)
    (hcap : cfg.initial_delay ≤ cfg.max_delay) (hbase : 1 ≤ cfg.exponential_base) :
    ∀ i : Nat, (nextDelay cfg)^[i] cfg.initial_delay =
      min (cfg.initial_delay * cfg.exponential_base ^ i) cfg.max_delay := by
  intro i
  induction i with
  | zero => simp [min_eq_left hcap]
  | succ n ih =>
    rw [Function.iterate_succ_apply', ih]
    unfold nextDelay
    rcases le_total (cfg.initial_delay * cfg.exponential_base ^ n) cfg.max_delay with h | h
    · rw [min_eq_left h, pow_succ, ← mul_assoc]
    · rw [min_eq_right h]
      rcases le_total 0 cfg.max_delay with h0 | h0
      · have h1 : cfg.max_delay ≤ cfg.initial_delay * cfg.exponential_base ^ n * cfg.exponential_base :=
          h.trans (le_mul_of_one_le_right (h0.trans h) hbase)
        rw [min_eq_right (le_mul_of_one_le_right h0 hbase), pow_succ, ← mul_assoc,
          min_eq_right h1]
      · have hb : (1 : ℚ) ≤ cfg.exponential_base ^ n := by
          calc (1 : ℚ) = 1 ^ n := (one_pow n).symm
            _ ≤ cfg.exponential_base ^ n := pow_le_pow_left₀ (by norm_num) hbase n
        have hd0 : cfg.initial_delay ≤ 0 := hcap.trans h0
        have h2 : cfg.initial_delay * cfg.exponential_base ^ n ≤ cfg.initial_delay := by
          nlinarith
        have heq : cfg.max_delay = cfg.initial_delay * cfg.exponential_base ^ n :=
          le_antisymm h (h2.trans hcap)
        rw [pow_succ, ← mul_assoc, ← heq]

/-- When the attempts starting at `attempt` fail `k` times with caught
exceptions and then succeed, with `k ≤ fuel`, the loop performs `k + 1`
calls, returns the success value, and sleeps the iterated delays. -/
theorem retryLoop_succeeds {α : Type} (cfg : RetryConfig) (f : Nat → Except Exc α) (a : α) :
    ∀ (k attempt fuel : Nat) (delay : ℚ), k ≤ fuel →
      (∀ i, i < k → ∃ e, f (attempt + i) = Except.error e ∧ caught cfg.exceptions e = true) →
      f (attempt + k) = Except.ok a →
      retryLoop cfg f attempt delay fuel =
        ⟨PyResult.ok a, k + 1, (List.range k).map (fun i => (nextDelay cfg)^[i] delay)⟩ := by
  intro k
  induction k with
  | zero =>
    intro attempt fuel delay _ _ hok
    rw [Nat.add_zero] at hok
    cases fuel with
    | zero => simp [retryLoop, hok]
    | succ n => simp [retryLoop, hok]
  | succ k ih =>
    intro attempt fuel delay hk hfail hok
    obtain ⟨fuel, rfl⟩ : ∃ n, fuel = n + 1 := ⟨fuel - 1, by omega⟩
    obtain ⟨e, he, hce⟩ := hfail 0 (Nat.succ_pos k)
    rw [Nat.add_zero] at he
    have ihr := ih (attempt + 1) fuel (nextDelay cfg delay) (by omega)
      (fun i hi => by
        obtain ⟨e', h1, h2⟩ := hfail (i + 1) (by omega)
        rw [show attempt + (i + 1) = attempt + 1 + i by omega] at h1
        exact ⟨e', h1, h2⟩)
      (by rw [show attempt + 1 + k = attempt + (k + 1) by omega]; exact hok)
    have hfun : ((fun i => (nextDelay cfg)^[i] delay) ∘ Nat.succ)
        = fun i => (nextDelay cfg)^[i] (nextDelay cfg delay) := by
      funext i
      simp [Function.comp, Function.iterate_succ_apply]
    simp [retryLoop, he, hce, ihr, List.range_succ_eq_map, List.map_map, hfun,
      ← List.range_map_iterate]

/-! ## Claims -/

/-- C1: a function wrapped with `retry_with_backoff` configured with
`max_retries = m` (`m ≥ 0`) that raises a retryable exception on every
attempt is invoked exactly `m + 1` times, and the wrapper raises to the
caller the exact exception of the final attempt, not a wrapped or
aggregated error. -/
theorem retry_exhaustion_raises_last {α : Type} (cfg : RetryConfig)
    (es : Nat → Exc) (m : Nat) (hm : cfg.max_retries = (m : Int))
    (h : ∀ i, caught cfg.exceptions (es i) = true) :
    (retry_with_backoff cfg (fun i => (Except.error (es i) : Except Exc α))).result
        = PyResult.raised (es m) ∧
    (retry_with_backoff cfg (fun i => (Except.error (es i) : Except Exc α))).calls
        = m + 1 := by
  have hnn : ¬ cfg.max_retries < 0 := by rw [hm]; omega
  have htn : cfg.max_retries.toNat = m := by rw [hm]; omega
  unfold retry_with_backoff
  rw [if_neg hnn, htn]
  have h2 := retryLoop_all_fail (α := α) cfg es h m 0 cfg.initial_delay
  simpa using h2

/-- Witness for C1 at the default configuration (`max_retries = 3`) and a
function that always raises `APIError("boom")`: four calls, and the raised
exception is that `APIError`. -/
theorem retry_exhaustion_raises_last_witness :
    (retry_with_backoff {}
        (fun _ => (Except.error ⟨ExcClass.apiErrorC, "boom"⟩ : Except Exc Unit))).result
        = PyResult.raised ⟨ExcClass.apiErrorC, "boom"⟩ ∧
    (retry_with_backoff {}
        (fun _ => (Except.error ⟨ExcClass.apiErrorC, "boom"⟩ : Except Exc Unit))).calls
        = 3 + 1 :=
  retry_exhaustion_raises_last {} (fun _ => ⟨ExcClass.apiErrorC, "boom"⟩) 3 rfl
    (fun _ => rfl)

/-- C2 counterexample: with `initial_delay = 100 > max_delay = 60`,
`max_retries = 1`, and a function failing once then succeeding, the single
sleep performed is `100` seconds — not `min(100 * 2^0, 60) = 60` — so a
single wait can exceed `max_delay`: the cap is applied only from the second
delay onward (error_handling.py lines 53, 80, 81). -/
theorem retry_sleep_cap_counterexample :
    (retry_with_backoff { max_retries := 1, initial_delay := 100 }
        (fun i => if i = 0 then (Except.error ⟨ExcClass.apiErrorC, "boom"⟩ : Except Exc String)
                  else Except.ok "ok")).sleeps = [100] ∧
    ¬ ((100 : ℚ) ≤ 60) ∧
    [(100 : ℚ)] ≠ [min ((100 : ℚ) * 2 ^ 0) 60] := by
  refine ⟨?_, by norm_num, by norm_num⟩
  norm_num [retry_with_backoff, retryLoop, caught, isinstance, isSubclass, nextDelay]

/-- C2 (amended): for a wrapped function failing `k` times then succeeding,
with `k ≤ max_retries`, and a configuration with
`initial_delay ≤ max_delay` and `exponential_base ≥ 1` (the defaults
satisfy both), the wrapper calls it exactly `k + 1` times, returns the
success value, and the sequence of sleeps is
`min(initial_delay * exponential_base ^ i, max_delay)` for `i = 0 .. k-1`,
so that no single wait exceeds `max_delay`.  Without
`initial_delay ≤ max_delay` the first sleep is the uncapped
`initial_delay`. -/
theorem retry_success_after_k_failures {α : Type} (cfg : RetryConfig)
    (es : Nat → Exc) (a : α) (k m : Nat)
    (hm : cfg.max_retries = (m : Int)) (hk : k ≤ m)
    (hcap : cfg.initial_delay ≤ cfg.max_delay) (hbase : 1 ≤ cfg.exponential_base)
    (hfail : ∀ i, i < k → caught cfg.exceptions (es i) = true) :
    retry_with_backoff cfg (fun i => if i < k then Except.error (es i) else Except.ok a) =
      ⟨PyResult.ok a, k + 1,
        (List.range k).map
          (fun i => min (cfg.initial_delay * cfg.exponential_base ^ i) cfg.max_delay)⟩ ∧
    ∀ d ∈ (retry_with_backoff cfg
        (fun i => if i < k then Except.error (es i) else Except.ok a)).sleeps,
      d ≤ cfg.max_delay := by
  have hnn : ¬ cfg.max_retries < 0 := by rw [hm]; omega
  have htn : cfg.max_retries.toNat = m := by rw [hm]; omega
  have hrun : retry_with_backoff cfg
      (fun i => if i < k then Except.error (es i) else Except.ok a) =
      ⟨PyResult.ok a, k + 1,
        (List.range k).map
          (fun i => min (cfg.initial_delay * cfg.exponential_base ^ i) cfg.max_delay)⟩ := by
    unfold retry_with_backoff
    rw [if_neg hnn, htn]
    have h2 := retryLoop_succeeds cfg
      (fun i => if i < k then Except.error (es i) else Except.ok a) a k 0 m
      cfg.initial_delay hk
      (fun i hi => ⟨es i, by simp [Nat.zero_add, hi], hfail i hi⟩)
      (by simp)
    rw [h2]
    simp only [nextDelay_iterate cfg hcap hbase]
  refine ⟨hrun, ?_⟩
  rw [hrun]
  intro d hd
  obtain ⟨i, _, rfl⟩ := List.mem_map.mp hd
  exact min_le_right _ _

/-- Witness for C2 at the specification's concrete scenario:
`max_retries = 2`, `initial_delay = 0.01`, `exponential_base = 2.0`, and a
function raising `ValueError` on calls 1 and 2 and returning `"ok"` on
call 3: the wrapper returns `"ok"`, the function is called 3 times, and the
sleeps are `0.01` and `0.02` seconds. -/
theorem retry_success_after_k_failures_witness :
    retry_with_backoff { max_retries := 2, initial_delay := 1/100 }
        (fun i => if i < 2 then Except.error ⟨ExcClass.valueErrorC, "Temporary error"⟩
                  else Except.ok "ok") =
      ⟨PyResult.ok "ok", 3, [1/100, 1/50]⟩ := by
  have h := retry_success_after_k_failures { max_retries := 2, initial_delay := 1/100 }
    (fun _ => ⟨ExcClass.valueErrorC, "Temporary error"⟩) "ok" 2 2 rfl (by norm_num)
    (by norm_num) (by norm_num) (fun _ _ => rfl)
  rw [h.1]
  norm_num [List.range_succ, min_def]

/-- C3 counterexample: under the decorator's default configuration
(`exceptions = (Exception,)`, `max_retries = 3`), a wrapped function that
raises `ValidationError("bad")` on every call IS retried: it is called 4
times (not once) and three sleeps of 1, 2 and 4 seconds are performed
before the exception finally propagates. -/
theorem validation_retried_by_default_counterexample :
    retry_with_backoff {}
        (fun _ => (Except.error ⟨ExcClass.validationErrorC, "bad"⟩ : Except Exc Unit)) =
      ⟨PyResult.raised ⟨ExcClass.validationErrorC, "bad"⟩, 4, [1, 2, 4]⟩ ∧
    (4 : Nat) ≠ 1 ∧ [(1 : ℚ), 2, 4] ≠ [] := by
  refine ⟨?_, by norm_num, by simp⟩
  norm_num [retry_with_backoff, retryLoop, caught, isinstance, isSubclass, nextDelay]

/-- C3 (amended): a `ValidationError` raised on the first call never enters
the retry loop PROVIDED `ValidationError` matches no class of the
decorator's `exceptions` tuple: the wrapped function is called exactly
once, no sleep occurs, and the exception propagates immediately.  With the
default `exceptions = (Exception,)` a `ValidationError` is caught and
retried like any other exception. -/
theorem validation_not_retryable_propagates {α : Type} (cfg : RetryConfig)
    (msg : String) (f : Nat → Except Exc α)
    (hm : 0 ≤ cfg.max_retries)
    (h0 : f 0 = Except.error ⟨ExcClass.validationErrorC, msg⟩)
    (hnc : caught cfg.exceptions ⟨ExcClass.validationErrorC, msg⟩ = false) :
    retry_with_backoff cfg f =
      ⟨PyResult.raised ⟨ExcClass.validationErrorC, msg⟩, 1, []⟩ := by
  unfold retry_with_backoff
  rw [if_neg (not_lt.mpr hm)]
  cases h : cfg.max_retries.toNat with
  | zero => simp [retryLoop, h0]
  | succ n => simp [retryLoop, h0, hnc]

/-- Witness for C3 (amended): with `exceptions = (APIError,)` and a function
raising `ValidationError("bad")`, the wrapper performs one call, no sleep,
and surfaces the `ValidationError`. -/
theorem validation_not_retryable_propagates_witness :
    retry_with_backoff { exceptions := [ExcClass.apiErrorC] }
        (fun _ => (Except.error ⟨ExcClass.validationErrorC, "bad"⟩ : Except Exc Unit)) =
      ⟨PyResult.raised ⟨ExcClass.validationErrorC, "bad"⟩, 1, []⟩ :=
  validation_not_retryable_propagates { exceptions := [ExcClass.apiErrorC] } "bad"
    (fun _ => Except.error ⟨ExcClass.validationErrorC, "bad"⟩) (by norm_num) rfl rfl

/-- C4 (code bug): because Python tries `except` clauses in order and the
anthropic SDK declares `RateLimitError` as a subclass of `APIError`, the
first clause `except anthropic.APIError` of `handle_api_error` catches an
`anthropic.RateLimitError` and converts it to the API kind (`APIError`),
never reaching the dedicated `except anthropic.RateLimitError` clause on
line 107 — which is therefore dead code, contradicting both that clause and
the repository's own test `test_rate_limit_error` (expecting the RateLimit
kind).  The other two parts of the claim do hold: other recognized upstream
failures map to the API kind, and unrecognized exceptions re-raise
unchanged. -/
theorem anthropic_rate_limit_misclassified :
    handle_api_error ⟨ExcClass.anthropicRateLimitErrorC, "Rate limited"⟩ =
      ⟨ExcClass.apiErrorC, "API call failed: Rate limited"⟩ ∧
    kindOf (handle_api_error ⟨ExcClass.anthropicRateLimitErrorC, "Rate limited"⟩) =
      ErrKind.api ∧
    handle_api_error ⟨ExcClass.anthropicAPIConnectionErrorC, "conn down"⟩ =
      ⟨ExcClass.apiErrorC, "API call failed: conn down"⟩ ∧
    handle_api_error ⟨ExcClass.anthropicAuthenticationErrorC, "bad key"⟩ =
      ⟨ExcClass.apiErrorC, "API call failed: bad key"⟩ ∧
    handle_api_error ⟨ExcClass.typeErrorC, "weird"⟩ = ⟨ExcClass.typeErrorC, "weird"⟩ :=
  ⟨rfl, rfl, rfl, rfl, rfl⟩

/-- C5: a `RateLimiter` built with `requests_per_minute = r > 0` has
`min_interval = 60 / r`, and in a single-threaded execution two
consecutive permitted calls through `wait_if_needed` on the same instance
are separated by at least `60 / r` seconds (the separation is measured
between the moments the two calls proceed, i.e. the recorded
`last_request_time` values, for any clock values `t₁`, `t₂` at which the
calls start). -/
theorem rate_limiter_spacing (r : Int) (hr : 0 < r) (rl : RateLimiter)
    (t₁ t₂ : ℚ) (hinit : RateLimiter.init r = Except.ok rl) :
    rl.min_interval = 60 / (r : ℚ) ∧
    60 / (r : ℚ) ≤ (wait_if_needed (wait_if_needed rl t₁).2 t₂).2.last_request_time
        - (wait_if_needed rl t₁).2.last_request_time := by
  unfold RateLimiter.init at hinit
  rw [if_neg hr.ne'] at hinit
  obtain rfl : (⟨r, 60 / (r : ℚ), 0⟩ : RateLimiter) = rl := by
    exact Except.ok.inj hinit
  exact ⟨rfl, wait_if_needed_spacing (wait_if_needed ⟨r, 60 / (r : ℚ), 0⟩ t₁).2 t₂⟩

/-- Witness for C5 at `r = 60` (so `min_interval = 1`) with both calls made
at clock value 100: the second permitted moment is at least 1 second after
the first. -/
theorem rate_limiter_spacing_witness :
    (⟨60, 1, 0⟩ : RateLimiter).min_interval = 60 / ((60 : Int) : ℚ) ∧
    60 / ((60 : Int) : ℚ) ≤
      (wait_if_needed (wait_if_needed ⟨60, 1, 0⟩ 100).2 100).2.last_request_time
        - (wait_if_needed ⟨60, 1, 0⟩ 100).2.last_request_time :=
  rate_limiter_spacing 60 (by norm_num) ⟨60, 1, 0⟩ 100 100
    (by norm_num [RateLimiter.init])

/-- C6 counterexample: on a freshly constructed limiter
(`last_request_time = 0`) with `requests_per_minute = 60`, the first
`wait_if_needed` call at clock value `1/2` sleeps `1/2` second — the claim
that the first call never sleeps "for any current clock value" fails
whenever the clock value is below `min_interval` (the code compares against
the `0.0` baseline, not against a missing baseline). -/
theorem first_call_sleeps_counterexample :
    RateLimiter.init 60 = Except.ok ⟨60, 1, 0⟩ ∧
    (wait_if_needed ⟨60, 1, 0⟩ (1/2)).1 = 1/2 ∧ ¬ ((1 : ℚ)/2 = 0) :=
  ⟨by norm_num [RateLimiter.init],
   by norm_num [wait_if_needed, sleep_time],
   by norm_num⟩

/-- C6 (amended): on a freshly constructed `RateLimiter`
(`last_request_time = 0`), the first `wait_if_needed` call performs no
sleep provided the current clock value is at least `min_interval` — which
always holds for the epoch-based wall clock the code reads — and every
call (first or subsequent) blocks for exactly
`max(0, min_interval - elapsed)`. -/
theorem first_call_no_sleep (rl : RateLimiter) (t : ℚ)
    (hfresh : rl.last_request_time = 0) (ht : rl.min_interval ≤ t) :
    (wait_if_needed rl t).1 = 0 ∧
    ∀ (s : RateLimiter) (u : ℚ),
      (wait_if_needed s u).1 = max 0 (s.min_interval - (u - s.last_request_time)) := by
  constructor
  · show sleep_time rl t = 0
    rw [sleep_time_eq_max, hfresh]
    rw [max_eq_left (by linarith)]
  · intro s u
    exact sleep_time_eq_max s u

/-- Witness for C6 (amended) at `r = 60`, first call at clock value 1000:
no sleep is performed. -/
theorem first_call_no_sleep_witness :
    (wait_if_needed ⟨60, 1, 0⟩ 1000).1 = 0 ∧
    ∀ (s : RateLimiter) (u : ℚ),
      (wait_if_needed s u).1 = max 0 (s.min_interval - (u - s.last_request_time)) :=
  first_call_no_sleep ⟨60, 1, 0⟩ 1000 rfl (by norm_num)

/-- C7: `validate_input(c, m)` raises `ValidationError` carrying exactly
the message `m` when `c` is false, and returns normally (no exception)
when `c` is true; the raised exception is of the Validation kind. -/
theorem validate_input_spec (c : Bool) (m : String) :
    validate_input c m =
      (if c then Except.ok () else Except.error ⟨ExcClass.validationErrorC, m⟩) ∧
    kindOf ⟨ExcClass.validationErrorC, m⟩ = ErrKind.validation := by
  cases c <;> exact ⟨rfl, rfl⟩

/-- C8: classification is an idempotent pure mapping: re-applying
`handle_api_error`'s exception translation to an already-classified
exception returns it unchanged, so its kind is the same both times. -/
theorem handle_api_error_idempotent (e : Exc) :
    handle_api_error (handle_api_error e) = handle_api_error e ∧
    kindOf (handle_api_error (handle_api_error e)) = kindOf (handle_api_error e) := by
  obtain ⟨c, m⟩ := e
  cases c <;> exact ⟨rfl, rfl⟩

/-- C9 counterexample: `RateLimiter(requests_per_minute=-1)` does NOT raise
during construction: Python evaluates `60.0 / -1 = -60.0` without error, so
a usable instance with `min_interval = -60` is produced (and such an
instance never sleeps: every elapsed time is ≥ a negative interval). -/
theorem negative_rate_constructs_counterexample :
    RateLimiter.init (-1) = Except.ok ⟨-1, -60, 0⟩ ∧
    (wait_if_needed ⟨-1, -60, 0⟩ 5).1 = 0 :=
  ⟨by norm_num [RateLimiter.init],
   by norm_num [wait_if_needed, sleep_time]⟩

/-- C9 (amended): constructing a `RateLimiter` with `requests_per_minute = 0`
raises `ZeroDivisionError` during construction, but for every negative
`requests_per_minute` construction succeeds and yields an instance whose
`min_interval` is negative (so it never throttles): only the zero case
fails fast. -/
theorem rate_limiter_init_zero_vs_negative (r : Int) (hr : r < 0) :
    RateLimiter.init 0 =
      Except.error ⟨ExcClass.zeroDivisionErrorC, "float division by zero"⟩ ∧
    RateLimiter.init r = Except.ok ⟨r, 60 / (r : ℚ), 0⟩ ∧
    60 / (r : ℚ) < 0 := by
  refine ⟨by norm_num [RateLimiter.init], ?_, ?_⟩
  · unfold RateLimiter.init
    rw [if_neg hr.ne]
  · apply div_neg_of_pos_of_neg (by norm_num)
    exact_mod_cast hr

/-- Witness for C9 (amended) at `r = -1`. -/
theorem rate_limiter_init_zero_vs_negative_witness :
    RateLimiter.init 0 =
      Except.error ⟨ExcClass.zeroDivisionErrorC, "float division by zero"⟩ ∧
    RateLimiter.init (-1) = Except.ok ⟨-1, 60 / ((-1 : Int) : ℚ), 0⟩ ∧
    60 / ((-1 : Int) : ℚ) < 0 :=
  rate_limiter_init_zero_vs_negative (-1) (by norm_num)

/-- C10: for every negative `max_retries`, the loop
`for attempt in range(max_retries + 1)` runs zero times, so the wrapper
never calls the underlying function and returns Python `None` without
raising: `last_exception` is still `None` when the fall-through check on
lines 84-85 runs. -/
theorem negative_max_retries_returns_none {α : Type} (cfg : RetryConfig)
    (f : Nat → Except Exc α) (hm : cfg.max_retries < 0) :
    retry_with_backoff cfg f = ⟨PyResult.noneReturn, 0, []⟩ := by
  unfold retry_with_backoff
  rw [if_pos hm]

/-- Witness for C10 at `max_retries = -1` and a function that would return
5 if it were ever called: zero calls, `None` returned. -/
theorem negative_max_retries_returns_none_witness :
    retry_with_backoff { max_retries := -1 }
        (fun _ => (Except.ok 5 : Except Exc Nat)) =
      ⟨PyResult.noneReturn, 0, []⟩ :=
  negative_max_retries_returns_none { max_retries := -1 }
    (fun _ => Except.ok 5) (by norm_num)
